import Mathlib

/-!
Shallow embedding of `src/onsights-chatview-main/src/components/chat/Visualization.tsx`.

The component receives an untrusted `VisualizationData` object (chart kind,
labels, values, optional `extra` presentation hints), turns it into a list of
points (`prepareChartData`), and builds a chart description (`renderChart`).
JSX output is modelled as the data it carries: which chart branch was taken and
the directives (data keys, colors, legend, axis labels) passed to it.

JavaScript conventions embedded explicitly:
- optional / possibly-missing fields are `Option`;
- `x || y` on strings: the empty string is falsy, every other string truthy;
- `x || y` on arrays: every array (also the empty one) is truthy;
- `arr[i]` out of range is `undefined`, modelled as `Option.none`
  (`arr[i % 0]` is `arr[NaN] = undefined`, and in Lean `i % 0 = i` with
  `[].get? i = none`, so the two agree);
- `Array.isArray(values[0])` on an absent `values` throws a TypeError,
  modelled with `Except Unit`.
-/

/-- A chart label: the TSX type is `string[] | number[]`, element-wise. -/
inductive Label where
  | str (s : String)
  | num (n : Int)
deriving DecidableEq, Repr

/-- The `values` field: `number[] | number[][]`.  A literal empty JS array
fits both tags; the code distinguishes them only through `isMulti`, under
which both tags of the empty array behave identically. -/
inductive Values where
  | single (vs : List Int)
  | multi (vss : List (List Int))
deriving DecidableEq, Repr

/-- The optional `extra` object of `VisualizationData`.  `quartis` and
`ranges` are `any` in the source and only tested for truthiness, so they are
modelled as opaque presence flags. -/
structure Extra where
  title : Option String
  xLabel : Option String
  yLabel : Option String
  colors : Option (List String)
  quartis : Option Unit
  ranges : Option Unit
  legendas : Option (List String)
deriving DecidableEq, Repr

/-- The `data` prop of the component.  `type` is declared as a string union
in TSX but the payload is backend-supplied and untrusted, hence `String`;
`labels` and `values` may be absent at runtime (the code guards for that). -/
structure VisualizationData where
  type : String
  labels : Option (List Label)
  values : Option Values
  extra : Option Extra
deriving DecidableEq, Repr

/-- The built-in default palette `COLORS` (lines 29-38). -/
def COLORS : List String :=
  ["#FFA500", "#FFB300", "#FFC107", "#FFD54F",
   "#FF9800", "#FFECB3", "#FFF8E1", "#FFB74D"]

/-- JS `||` on a possibly-absent string: absent and `""` are falsy. -/
def jsOrStr (a : Option String) (b : String) : String :=
  match a with
  | some s => if s = "" then b else s
  | none => b

/-- JS truthiness filter on a possibly-absent string (used where the code
writes `cond ? ... : undefined` with a string condition). -/
def jsTruthyStr (a : Option String) : Option String :=
  match a with
  | some s => if s = "" then none else some s
  | none => none

/-- `Array.isArray(values[0])`: true exactly when the first element of the
values array exists and is itself an array. -/
def isMulti : Values → Bool
  | .single _ => false
  | .multi vss => !vss.isEmpty

/-- `(data.values as number[])[index]` on the single-series path.  The
multi tag reaches this path only when the outer list is empty (then every
index reads `undefined`); a non-empty multi list never reaches it. -/
def flatGet : Values → Nat → Option Int
  | .single vs, i => vs.get? i
  | .multi _, _ => none

/-- The inner series lists of a multi-tagged `values`. -/
def seriesList : Values → List (List Int)
  | .single _ => []
  | .multi vss => vss

/-- `typeof label === 'number' ? label : index` (line 64). -/
def xOf : Label → Nat → Int
  | .num n, _ => n
  | .str _, i => (i : Int)

/-- `data.extra?.legendas?.[seriesIndex] || 'Série ' + (seriesIndex+1)`
(lines 52 and 93/132): absent array, out-of-range index and the empty
string all fall back to the synthesized name. -/
def seriesName (extra : Option Extra) (s : Nat) : String :=
  jsOrStr ((extra.bind Extra.legendas).bind (fun ls => ls.get? s))
    ("Série " ++ toString (s + 1))

/-- `data.extra?.colors || COLORS` (line 70): a supplied array is used even
when empty (JS arrays are truthy); only an absent field falls back. -/
def customColors (d : VisualizationData) : List String :=
  match d.extra.bind Extra.colors with
  | some cs => cs
  | none => COLORS

/-- `cs[s % cs.length]`: on the empty list `s % 0` is `NaN` in JS and the
read yields `undefined`; here `s % 0 = s` and `[].get? s = none`. -/
def colorAt (cs : List String) (s : Nat) : Option String :=
  cs.get? (s % cs.length)

/-- JS `arr.map((a, i) => f i a)` starting from index `i0`. -/
def mapIdxFrom (f : Nat → α → β) : Nat → List α → List β
  | _, [] => []
  | i, a :: as => f i a :: mapIdxFrom f (i + 1) as

/-- One JS object property assignment `obj[k] = v`: if the key is already
present, its entry is overwritten in place (JS objects are last-write-wins
and keep the first insertion position of a key); otherwise the key is
appended in insertion order. -/
def objSet (obj : List (String × Option Int)) (k : String) (v : Option Int) :
    List (String × Option Int) :=
  if obj.any (fun p => p.1 == k) then
    obj.map (fun p => if p.1 == k then (k, v) else p)
  else obj ++ [(k, v)]

/-- The multi-series loop body (lines 51-54):
`values.forEach((series, seriesIndex) => dataPoint[seriesName] = series[index])`,
one `objSet` per series — so two series resolving to the same name write to
the same property, the later overwriting the earlier. -/
def assignSeries (extra : Option Extra) (i : Nat) :
    Nat → List (String × Option Int) → List (List Int) → List (String × Option Int)
  | _, obj, [] => obj
  | s, obj, series :: rest =>
    assignSeries extra i (s + 1) (objSet obj (seriesName extra s) (series.get? i)) rest

/-- A point produced by `prepareChartData`: either the multi-series record
`{name, [seriesName s]: values[s][i]}` (the series properties built by
`assignSeries`) or the single-series record `{name, value, x, y}`. -/
inductive Point where
  | multiPt (name : Label) (fields : List (String × Option Int))
  | singlePt (name : Label) (value : Option Int) (x : Int) (y : Option Int)
deriving DecidableEq, Repr

/-- `prepareChartData` (lines 44-67). -/
def prepareChartData (d : VisualizationData) : List Point :=
  match d.labels, d.values with
  | some labels, some values =>
    if isMulti values then
      mapIdxFrom (fun i label =>
        Point.multiPt label (assignSeries d.extra i 0 [] (seriesList values)))
        0 labels
    else
      mapIdxFrom (fun i label =>
        Point.singlePt label (flatGet values i) (xOf label i) (flatGet values i))
        0 labels
  | _, _ => []

/-- What `renderChart` hands the charting collaborator, per branch of the
`switch (data.type)` at lines 72-269.  Each constructor records the branch
and the directives the JSX passes down: data points, per-series data keys
and fill/stroke colors, legend presence, axis labels, the histogram's
`barCategoryGap={0}` flag, and the boxplot's quartile/range switches. -/
inductive Rendered where
  | bar (points : List Point) (multi : Bool)
      (seriesBars : List (String × Option String))
      (legend : Bool) (xLabel yLabel : Option String)
  | line (points : List Point) (multi : Bool)
      (seriesLines : List (String × Option String))
      (legend : Bool) (xLabel yLabel : Option String)
  | pie (pieData : List (Point × Option String))
  | scatter (points : List Point) (fill : Option String)
      (xLabel yLabel : Option String)
  | histogram (points : List Point) (contiguous : Bool)
      (yLabel : Option String) (fill : Option String)
  | boxplot (usesQuartis : Bool) (points : List Point)
      (bodyColor overlayColor : Option String) (rangeOverlay : Bool)
  | unsupported (kind : String)
deriving DecidableEq, Repr

/-- The y-axis label of the histogram branch (line 222): the whole label is
emitted only when `data.extra?.yLabel` is truthy, and only then does the
inner `data.extra.yLabel || 'Frequência'` fallback evaluate. -/
def histYLabel (extra : Option Extra) : Option String :=
  match jsTruthyStr (extra.bind Extra.yLabel) with
  | some y => some (jsOrStr (some y) "Frequência")
  | none => none

/-- The per-series `<Bar>`/`<Line>` elements of the multi-series branches
(lines 92-102 and 131-144): one `(dataKey, fill)` pair per inner series. -/
def multiSeriesDirectives (d : VisualizationData) (vss : List (List Int)) :
    List (String × Option String) :=
  mapIdxFrom (fun s _ => (seriesName d.extra s, colorAt (customColors d) s)) 0 vss

/-- `data.extra?.legendas && <Legend />` (lines 108 and 155): the legend is
rendered exactly when the `legendas` field is present (any array, even the
empty one, is truthy). -/
def legendFlag (d : VisualizationData) : Bool :=
  (d.extra.bind Extra.legendas).isSome

/-- `Array.isArray(data.values[0])` as evaluated inside the bar / line /
timeseries JSX (lines 90 and 129): reading `[0]` of an absent `values`
throws a TypeError. -/
def valuesIsMulti (v : Option Values) : Except Unit Bool :=
  match v with
  | none => .error ()
  | some values => .ok (isMulti values)

/-- `renderChart` (lines 72-269).  `Except Unit` carries the TypeError the
bar/line/timeseries branches throw when `data.values` is absent. -/
def renderChart (d : VisualizationData) : Except Unit Rendered :=
  let chartData := prepareChartData d
  let cc := customColors d
  let xL := jsTruthyStr (d.extra.bind Extra.xLabel)
  let yL := jsTruthyStr (d.extra.bind Extra.yLabel)
  if d.type = "bar" then
    match valuesIsMulti d.values with
    | .error e => .error e
    | .ok true =>
      .ok (.bar chartData true
        (multiSeriesDirectives d (seriesList ((d.values).getD (.multi []))))
        (legendFlag d) xL yL)
    | .ok false =>
      .ok (.bar chartData false [("value", colorAt cc 0)] (legendFlag d) xL yL)
  else if d.type = "line" ∨ d.type = "timeseries" then
    match valuesIsMulti d.values with
    | .error e => .error e
    | .ok true =>
      .ok (.line chartData true
        (multiSeriesDirectives d (seriesList ((d.values).getD (.multi []))))
        (legendFlag d) xL yL)
    | .ok false =>
      .ok (.line chartData false [("value", colorAt cc 0)] (legendFlag d) xL yL)
  else if d.type = "pie" then
    .ok (.pie (mapIdxFrom (fun i p => (p, colorAt cc i)) 0 chartData))
  else if d.type = "scatter" then
    .ok (.scatter chartData (colorAt cc 0) xL yL)
  else if d.type = "histogram" then
    .ok (.histogram chartData true (histYLabel d.extra) (colorAt cc 0))
  else if d.type = "boxplot" then
    .ok (.boxplot (d.extra.bind Extra.quartis).isSome chartData
      (colorAt cc 0) (colorAt cc 1) (d.extra.bind Extra.ranges).isSome)
  else
    .ok (.unsupported d.type)

/-- The card the component returns: the optional title heading plus the
chart (lines 271-284). -/
structure CardOut where
  title : Option String
  chart : Rendered
deriving DecidableEq, Repr

/-- The `Visualization` component (lines 40-285): `null` for an absent
`data` prop, otherwise the card around `renderChart()`. -/
def Visualization (data : Option VisualizationData) :
    Except Unit (Option CardOut) :=
  match data with
  | none => .ok none
  | some d =>
    match renderChart d with
    | .ok r => .ok (some ⟨jsTruthyStr (d.extra.bind Extra.title), r⟩)
    | .error e => .error e

/-- The legend directive of a rendered chart: only the bar and line
branches ever emit a `<Legend />`. -/
def renderedLegend : Rendered → Option Bool
  | .bar _ _ _ l _ _ => some l
  | .line _ _ _ l _ _ => some l
  | _ => none

/-! ### Concrete specs used by witnesses and counterexamples -/

/-- A single-series bar spec with one string and one numeric label. -/
def specSingle : VisualizationData :=
  ⟨"bar", some [.str "Jan", .num 5], some (.single [10, 20]), none⟩

/-- A pie spec whose values hold two inner series. -/
def specPieMulti : VisualizationData :=
  ⟨"pie", some [.str "a", .str "b"], some (.multi [[1, 2], [3, 4]]), none⟩

/-- The extra object of the spec's naming test: `legendas = ["Wind"]`. -/
def extraWind : Option Extra :=
  some ⟨none, none, none, none, none, none, some ["Wind"]⟩

/-- A two-series bar spec with no `extra` object at all. -/
def specMultiNoExtra : VisualizationData :=
  ⟨"bar", some [.str "a"], some (.multi [[1], [2]]), none⟩

/-- A single-series bar spec that supplies an empty color palette. -/
def specEmptyPalette : VisualizationData :=
  ⟨"bar", some [.str "a"], some (.single [1]),
   some ⟨none, none, none, some [], none, none, none⟩⟩

/-- A histogram spec with no `extra` object, so no `yLabel` is set. -/
def specHistogram : VisualizationData :=
  ⟨"histogram", some [.str "0-10"], some (.single [5]), none⟩

/-- A bar spec whose `values` field is missing entirely. -/
def specNoValues : VisualizationData :=
  ⟨"bar", some [.str "a"], none, none⟩

/-- A single-series bar spec that supplies a three-color palette. -/
def specPalette : VisualizationData :=
  ⟨"bar", some [.str "a"], some (.single [1]),
   some ⟨none, none, none, some ["red", "green", "blue"], none, none, none⟩⟩

theorem length_mapIdxFrom (f : Nat → α → β) (i : Nat) (l : List α) :
    (mapIdxFrom f i l).length = l.length := by
  induction l generalizing i with
  | nil => rfl
  | cons a as ih => simp [mapIdxFrom, ih]

theorem get?_mapIdxFrom (f : Nat → α → β) (i j : Nat) (l : List α) :
    (mapIdxFrom f i l).get? j = (l.get? j).map (f (i + j)) := by
  induction l generalizing i j with
  | nil => simp [mapIdxFrom]
  | cons a as ih =>
    cases j with
    | zero => simp [mapIdxFrom]
    | succ j =>
      have hidx : i + 1 + j = i + (j + 1) := by omega
      simp only [mapIdxFrom, List.get?_cons_succ, ih (i + 1) j, hidx]

/-- Whenever `values` is present, every branch of `renderChart` succeeds:
the only thrown failure is the `values[0]` read on an absent `values`. -/
theorem renderChart_ok_of_values {d : VisualizationData} {v : Values}
    (h : d.values = some v) : ∃ r, renderChart d = .ok r := by
  unfold renderChart
  rw [h]
  split_ifs <;>
    (cases v with
     | single vs => exact ⟨_, rfl⟩
     | multi vss => cases vss <;> exact ⟨_, rfl⟩)

/-! ### Claim theorems -/

/-- C1: for every single-series spec (values is a flat number sequence) with
present labels and values, the normalizer produces exactly one point per
label, and point `i` carries category `labels[i]`, value `values[i]`,
`x = labels[i]` when the label is numeric and the index `i` otherwise, and
`y = values[i]`. -/
theorem c1_single_series_shape (d : VisualizationData)
    (ls : List Label) (vs : List Int)
    (hl : d.labels = some ls) (hv : d.values = some (Values.single vs)) :
    (prepareChartData d).length = ls.length ∧
    ∀ i lab, ls.get? i = some lab →
      (prepareChartData d).get? i =
        some (Point.singlePt lab (vs.get? i) (xOf lab i) (vs.get? i)) := by
  unfold prepareChartData
  rw [hl, hv]
  simp only [isMulti, if_false, Bool.false_eq_true]
  refine ⟨length_mapIdxFrom _ _ _, fun i lab hlab => ?_⟩
  rw [get?_mapIdxFrom, hlab]
  simp [flatGet]

/-- Witness for C1: the concrete spec `specSingle` evaluated at index 1,
whose label is the number 5, so `x` is the label itself. -/
theorem c1_single_series_shape_witness :
    (prepareChartData specSingle).length = 2 ∧
    (prepareChartData specSingle).get? 1 =
      some (Point.singlePt (.num 5) (some 20) 5 (some 20)) := by
  have h := c1_single_series_shape specSingle [.str "Jan", .num 5] [10, 20] rfl rfl
  exact ⟨h.1, h.2 1 (.num 5) rfl⟩

/-- C2 counterexample: with `labels = []` and `values = []` the component
does not report any error — it proceeds to build the selected kind's chart
(here the single-series bar branch) over the empty point list, and the whole
render succeeds. -/
theorem c2_counterexample :
    Visualization (some ⟨"bar", some [], some (.single []), none⟩) =
      .ok (some ⟨none, .bar [] false [("value", some "#FFA500")] false none none⟩) := by
  rfl

/-- C2 amended: when labels and values are both absent, or both empty,
`prepareChartData` yields the empty point list and empty values are
classified as single-series (the multi-series branch is not taken); but no
`EmptySeries` error exists — whenever `values` is present, `renderChart`
still succeeds and builds the kind's chart element over the empty points. -/
theorem c2_empty_series_amended (d : VisualizationData)
    (h : (d.labels = none ∧ d.values = none) ∨
         (d.labels = some [] ∧
           (d.values = some (.single []) ∨ d.values = some (.multi [])))) :
    prepareChartData d = [] ∧
    (∀ v, d.values = some v → isMulti v = false) ∧
    (∀ v, d.values = some v → ∃ r, renderChart d = .ok r) := by
  rcases h with ⟨hl, hv⟩ | ⟨hl, hv | hv⟩ <;>
    refine ⟨?_, fun v hv2 => ?_, fun v hv2 => renderChart_ok_of_values hv2⟩ <;>
    first
      | (unfold prepareChartData; rw [hl, hv]; try rfl)
      | (rw [hv] at hv2; cases hv2; rfl)
      | (rw [hv2] at hv; cases hv)

/-- Witness for C2 amended, at the both-empty bar spec. -/
theorem c2_empty_series_amended_witness :
    prepareChartData ⟨"bar", some [], some (.single []), none⟩ = [] ∧
    isMulti (.single []) = false ∧
    ∃ r, renderChart ⟨"bar", some [], some (.single []), none⟩ = .ok r := by
  have h := c2_empty_series_amended ⟨"bar", some [], some (.single []), none⟩
    (Or.inr ⟨rfl, Or.inl rfl⟩)
  exact ⟨h.1, h.2.1 _ rfl, h.2.2 _ rfl⟩

/-- C3 counterexample: a pie spec with two inner value sequences is rendered
through the pie branch — it is not routed to the unsupported-kind fallback,
and no error is produced. -/
theorem c3_counterexample :
    renderChart specPieMulti =
      .ok (.pie
        [(.multiPt (.str "a") [("Série 1", some 1), ("Série 2", some 3)], some "#FFA500"),
         (.multiPt (.str "b") [("Série 1", some 2), ("Série 2", some 4)], some "#FFB300")]) ∧
    renderChart specPieMulti ≠ .ok (.unsupported "pie") := by
  exact ⟨rfl, fun h => absurd (Except.ok.inj h) (by decide)⟩

/-- C3 amended: a pie spec with more than one inner value sequence is not
reported as unsupported — `renderChart` takes the pie branch over the
multi-series points, assigning one cyclic color per point, and every
produced point is a multi-series record (per-series properties rather than
the single-series `value`/`x`/`y` shape; whether the pie's
`dataKey="value"` finds data then depends only on whether some series
resolves to the name `"value"`). -/
theorem c3_pie_multi_amended (d : VisualizationData)
    (ls : List Label) (vss : List (List Int))
    (ht : d.type = "pie") (hl : d.labels = some ls)
    (hv : d.values = some (.multi vss)) (hne : vss ≠ []) :
    renderChart d =
      .ok (.pie (mapIdxFrom (fun i p => (p, colorAt (customColors d) i)) 0
        (prepareChartData d))) ∧
    ∀ i p, (prepareChartData d).get? i = some p →
      ∃ name fields, p = Point.multiPt name fields := by
  have hm : isMulti (Values.multi vss) = true := by
    cases vss with
    | nil => exact absurd rfl hne
    | cons a as => rfl
  constructor
  · unfold renderChart
    rw [ht]
    rfl
  · intro i p hp
    unfold prepareChartData at hp
    rw [hl, hv] at hp
    simp only [hm, if_true] at hp
    rw [get?_mapIdxFrom] at hp
    cases hls : ls.get? i with
    | none => rw [hls] at hp; simp at hp
    | some lab =>
      rw [hls] at hp
      simp only [Option.map_some', Option.some.injEq] at hp
      exact ⟨lab, _, hp.symm⟩

/-- Witness for C3 amended at the concrete two-series pie spec. -/
theorem c3_pie_multi_amended_witness :
    renderChart specPieMulti =
      .ok (.pie
        [(.multiPt (.str "a") [("Série 1", some 1), ("Série 2", some 3)], some "#FFA500"),
         (.multiPt (.str "b") [("Série 1", some 2), ("Série 2", some 4)], some "#FFB300")]) ∧
    ∃ name fields,
      Point.multiPt (.str "a") [("Série 1", some 1), ("Série 2", some 3)] =
        Point.multiPt name fields := by
  have h := c3_pie_multi_amended specPieMulti [.str "a", .str "b"] [[1, 2], [3, 4]]
    rfl rfl rfl (by decide)
  exact ⟨h.1, h.2 0 _ rfl⟩

/-- C4: for every spec whose kind lies outside the closed set
{line, bar, pie, boxplot, scatter, histogram, timeseries}, `renderChart`
takes the visible unsupported-kind fallback branch (the "chart type not
supported" placeholder carrying the kind's text), and the whole component
still succeeds — no exception is thrown. -/
theorem c4_unsupported_fallback (d : VisualizationData)
    (h1 : d.type ≠ "line") (h2 : d.type ≠ "bar") (h3 : d.type ≠ "pie")
    (h4 : d.type ≠ "boxplot") (h5 : d.type ≠ "scatter")
    (h6 : d.type ≠ "histogram") (h7 : d.type ≠ "timeseries") :
    renderChart d = .ok (.unsupported d.type) ∧
    Visualization (some d) =
      .ok (some ⟨jsTruthyStr (d.extra.bind Extra.title), .unsupported d.type⟩) := by
  have hr : renderChart d = .ok (.unsupported d.type) := by
    unfold renderChart
    split_ifs with a b
    · exact absurd a h2
    · rcases b with b | b
      · exact absurd b h1
      · exact absurd b h7
    · rfl
  refine ⟨hr, ?_⟩
  simp only [Visualization]
  rw [hr]

/-- Witness for C4 at the kind `"foo"`. -/
theorem c4_unsupported_fallback_witness :
    renderChart ⟨"foo", some [.str "a"], some (.single [1]), none⟩ =
      .ok (.unsupported "foo") ∧
    Visualization (some ⟨"foo", some [.str "a"], some (.single [1]), none⟩) =
      .ok (some ⟨none, .unsupported "foo"⟩) := by
  have h := c4_unsupported_fallback ⟨"foo", some [.str "a"], some (.single [1]), none⟩
    (by decide) (by decide) (by decide) (by decide) (by decide) (by decide) (by decide)
  exact ⟨h.1, h.2⟩

/-- C5 counterexample: with `legendas = ["Wind"]`, the second series (index
1) resolves to the Portuguese `"Série 2"`, not to the string `"Series 2"`
the claim requires. -/
theorem c5_counterexample :
    seriesName extraWind 1 = "Série 2" ∧ "Série 2" ≠ "Series 2" := by
  exact ⟨rfl, by decide⟩

/-- C5 amended: for every series index at which `legendas` is absent,
too short, or holds the empty string, the resolved series name is exactly
`"Série {s+1}"` (1-indexed, the source's Portuguese numbering). -/
theorem c5_series_name_amended (extra : Option Extra) (s : Nat)
    (h : (extra.bind Extra.legendas).bind (fun ls => ls.get? s) = none ∨
         (extra.bind Extra.legendas).bind (fun ls => ls.get? s) = some "") :
    seriesName extra s = "Série " ++ toString (s + 1) := by
  unfold seriesName jsOrStr
  rcases h with h | h <;> (rw [h]; try simp)

/-- Witness for C5 amended: with `legendas = ["Wind"]` and a second series,
index 1 synthesizes `"Série 2"`, which differs from the supplied `"Wind"`. -/
theorem c5_series_name_amended_witness :
    seriesName extraWind 1 = "Série " ++ toString 2 ∧
    seriesName extraWind 1 ≠ "Wind" := by
  have h := c5_series_name_amended extraWind 1 (Or.inl rfl)
  exact ⟨h, by rw [h]; decide⟩

/-- C6 counterexample: a two-series bar spec with no `legendas` field is
rendered with two bars but with the legend flag off — the claim would
require a legend whenever more than one series is present. -/
theorem c6_counterexample :
    renderChart specMultiNoExtra =
      .ok (.bar [.multiPt (.str "a") [("Série 1", some 1), ("Série 2", some 2)]] true
        [("Série 1", some "#FFA500"), ("Série 2", some "#FFB300")] false none none) ∧
    legendFlag specMultiNoExtra = false := ⟨rfl, rfl⟩

/-- C6 amended: for bar, line and timeseries charts (the only branches that
ever emit a legend), the legend is rendered exactly when the spec's
`legendas` field is present — independently of the number of series. -/
theorem c6_legend_amended (d : VisualizationData) (v : Values)
    (hv : d.values = some v)
    (ht : d.type = "bar" ∨ d.type = "line" ∨ d.type = "timeseries") :
    ∃ r, renderChart d = .ok r ∧
      renderedLegend r = some (d.extra.bind Extra.legendas).isSome := by
  rcases ht with ht | ht | ht <;>
    (unfold renderChart
     rw [ht, hv]
     cases v with
     | single vs => exact ⟨_, rfl, rfl⟩
     | multi vss => cases vss <;> exact ⟨_, rfl, rfl⟩)

/-- Witness for C6 amended at the two-series bar spec without `legendas`. -/
theorem c6_legend_amended_witness :
    ∃ r, renderChart specMultiNoExtra = .ok r ∧ renderedLegend r = some false := by
  exact c6_legend_amended specMultiNoExtra (.multi [[1], [2]]) rfl (Or.inl rfl)

/-- C7 counterexample: supplying an *empty* palette does not fall back to
the default palette — the empty array is truthy, so the resolved color for
series 0 is absent, while the claim would require the default palette's
first token. -/
theorem c7_counterexample :
    customColors specEmptyPalette = [] ∧
    colorAt (customColors specEmptyPalette) 0 = none ∧
    COLORS.get? (0 % COLORS.length) = some "#FFA500" ∧
    renderChart specEmptyPalette =
      .ok (.bar [.singlePt (.str "a") (some 1) 0 (some 1)] false
        [("value", none)] false none none) :=
  ⟨rfl, rfl, rfl, rfl⟩

/-- C7 amended: color resolution is deterministic and cyclic over the
palette that is actually in effect: a supplied non-empty palette resolves
series `s` to `palette[s mod k]`; an *absent* palette falls back to the
built-in 8-token default under `s mod 8`; a supplied empty palette resolves
to no color at all. -/
theorem c7_colors_amended (d : VisualizationData) (s : Nat) :
    (∀ cs, d.extra.bind Extra.colors = some cs → cs ≠ [] →
      colorAt (customColors d) s = cs.get? (s % cs.length) ∧
      (cs.get? (s % cs.length)).isSome = true) ∧
    (d.extra.bind Extra.colors = none →
      colorAt (customColors d) s = COLORS.get? (s % 8)) ∧
    (d.extra.bind Extra.colors = some [] →
      colorAt (customColors d) s = none) := by
  refine ⟨fun cs hcs hne => ?_, fun hnone => ?_, fun hempty => ?_⟩
  · have hc : customColors d = cs := by unfold customColors; rw [hcs]
    rw [hc]
    refine ⟨rfl, ?_⟩
    have hlt : s % cs.length < cs.length :=
      Nat.mod_lt _ (List.length_pos.mpr hne)
    rw [List.get?_eq_get hlt]
    rfl
  · have hc : customColors d = COLORS := by unfold customColors; rw [hnone]
    rw [hc]
    rfl
  · have hc : customColors d = [] := by unfold customColors; rw [hempty]
    rw [hc]
    rfl

/-- Witness for C7 amended: with palette `["red","green","blue"]`, series 4
resolves to `"green"` (4 mod 3 = 1); with no palette, series 9 resolves to
the default palette's second token (9 mod 8 = 1). -/
theorem c7_colors_amended_witness :
    colorAt (customColors specPalette) 4 = some "green" ∧
    colorAt (customColors specSingle) 9 = some "#FFB300" := by
  have h1 := (c7_colors_amended specPalette 4).1 ["red", "green", "blue"] rfl (by decide)
  have h2 := (c7_colors_amended specSingle 9).2.1 rfl
  constructor
  · rw [h1.1]
    rfl
  · rw [h2]
    rfl

/-- C8: at the spec's own scenario (`kind = "histogram"`,
`labels = ["0-10"]`, `values = [5]`, no `yLabel`), the histogram is
rendered with `contiguous = true` but with *no* y-axis label: the
`'Frequência'` fallback inside line 222 is dead code, because the whole
label expression is guarded by `data.extra?.yLabel` being truthy. -/
theorem c8_histogram_code_bug :
    renderChart specHistogram =
      .ok (.histogram [.singlePt (.str "0-10") (some 5) 0 (some 5)]
        true none (some "#FFA500")) ∧
    histYLabel none = none := ⟨rfl, rfl⟩

/-- C10 counterexample: with `values` absent and kind `"bar"`, the
component is *not* total: `prepareChartData` degrades to the empty point
list, but `renderChart` evaluates `data.values[0]` on `undefined` (line 90)
and throws, so the whole render fails. -/
theorem c10_counterexample :
    Visualization (some specNoValues) = .error () ∧
    prepareChartData specNoValues = [] := ⟨rfl, rfl⟩

/-- C10 amended: the component returns null for an absent `data` value and
an empty point list when `labels` or `values` is missing; however, when
`values` is missing and the kind is bar, line, or timeseries, the render
throws a TypeError (reading `values[0]` of `undefined`); for every other
input shape it completes without throwing. -/
theorem c10_totality_amended (d : VisualizationData) :
    Visualization none = .ok none ∧
    (d.labels = none ∨ d.values = none → prepareChartData d = []) ∧
    (d.values = none →
      (d.type = "bar" ∨ d.type = "line" ∨ d.type = "timeseries") →
      Visualization (some d) = .error ()) ∧
    ((d.values = none → d.type ≠ "bar" ∧ d.type ≠ "line" ∧ d.type ≠ "timeseries") →
      ∃ c, Visualization (some d) = .ok c) := by
  refine ⟨rfl, fun h => ?_, fun hv ht => ?_, fun h => ?_⟩
  · unfold prepareChartData
    rcases h with h | h
    · rw [h]
    · rw [h]
      cases d.labels <;> rfl
  · have hr : renderChart d = .error () := by
      unfold renderChart
      rw [hv]
      rcases ht with ht | ht | ht <;> (rw [ht]; rfl)
    simp only [Visualization]
    rw [hr]
  · cases hvv : d.values with
    | some v =>
      obtain ⟨r, hr⟩ := renderChart_ok_of_values hvv
      refine ⟨some ⟨jsTruthyStr (d.extra.bind Extra.title), r⟩, ?_⟩
      simp only [Visualization]
      rw [hr]
    | none =>
      obtain ⟨hb, hli, hts⟩ := h hvv
      have hr : ∃ r, renderChart d = .ok r := by
        unfold renderChart
        rw [if_neg hb, if_neg (by tauto : ¬(d.type = "line" ∨ d.type = "timeseries"))]
        split_ifs <;> exact ⟨_, rfl⟩
      obtain ⟨r, hr⟩ := hr
      refine ⟨some ⟨jsTruthyStr (d.extra.bind Extra.title), r⟩, ?_⟩
      simp only [Visualization]
      rw [hr]

/-- Witness for C10 amended: a pie spec with both fields missing renders
without throwing, and the absent `data` prop yields null. -/
theorem c10_totality_amended_witness :
    Visualization none = .ok none ∧
    prepareChartData ⟨"pie", none, none, none⟩ = [] ∧
    ∃ c, Visualization (some ⟨"pie", none, none, none⟩) = .ok c := by
  have h := c10_totality_amended ⟨"pie", none, none, none⟩
  exact ⟨h.1, h.2.1 (Or.inl rfl), h.2.2.2 (fun _ => by decide)⟩
